import Mathlib

/-!
Shallow embedding of `src/nas.py`, a checkpointed NAS provisioning script.

Modelling conventions:
- External command outcomes are supplied by an environment oracle
  `Env.cmdOutcome`, indexed by the number of commands already executed in the
  current invocation (`St.nCmds`).  Each executed command is recorded in the
  event trace, whatever its outcome.
- The persisted checkpoint file `/var/lib/mysetup_step` is the `St.flagFile`
  field; it is the only file whose contents the program reads back, so it is
  the only file whose contents are modelled.  Appends and writes to other
  files are recorded as trace events.
- Process termination (`sys.exit(code)`) and an uncaught exception are the
  error component of an `Except Halt` result; the bind of the monad
  short-circuits on it, so no further code of the invocation runs.
- Console output is not modelled, with one exception: the diagnostic dump of
  captured stdout and stderr that `run` performs before `sys.exit(1)` is
  recorded as `Event.printed` entries, because a claim refers to it.
- `time.sleep` has no observable effect and is dropped.
- The module-level configuration constants are transcribed as definitions;
  `validate_config` reads two of them (`RAID_LEVEL`, `len(RAID_DEVICES)`),
  which are made explicit parameters so that the validation rule can be
  stated for every level and device count.
- Python `int(...)` is modelled for ordinary ASCII integer literals
  (optional sign, digit run); exotic accepted forms such as underscore
  separators or non-ASCII digits are not modelled.
- The IPv4 network computation in `get_network_address` (and the address in
  `get_server_ip`) is abstracted to an environment-supplied string; the
  program never branches on these strings.  The Flask dashboard and the
  `--dashboard-only` mode are outside the modelled entry path, which follows
  the normal provisioning invocation of `__main__`.
-/

namespace NasPy

/-- Captured result of one external command, as in
`subprocess.CompletedProcess`: exit status and captured output. -/
structure CmdResult where
  returncode : Int
  stdout : String
  stderr : String
deriving DecidableEq

/-- Environment-chosen outcome of executing one external command: it ran to
completion with some exit status, it exceeded its timeout, or it could not
be spawned at all (raising `FileNotFoundError` and the like). -/
inductive CmdOutcome where
  | completed (r : CmdResult)
  | timedOut
  | spawnFailed
deriving DecidableEq

/-- An outcome that `run` treats as a failure: non-zero exit status, timeout,
or spawn failure. -/
def CmdOutcome.isFatal : CmdOutcome → Bool
  | CmdOutcome.completed r => r.returncode != 0
  | CmdOutcome.timedOut => true
  | CmdOutcome.spawnFailed => true

/-- State of the persisted checkpoint file `/var/lib/mysetup_step`: missing,
present but unreadable (`open` raises), or readable with some content. -/
inductive FileState where
  | absent
  | unreadable
  | readable (content : String)
deriving DecidableEq

/-- Observable actions of one invocation, in order of occurrence. -/
inductive Event where
  | cmd (argv : List String)
  | printed (text : String)
  | confirm
  | append (path : String) (text : String)
  | fileWrite (path : String)
  | stepWrite (n : Int)
deriving DecidableEq

/-- How an invocation terminates early: `sys.exit(code)`, or an uncaught
exception aborting the interpreter. -/
inductive Halt where
  | exit (code : Nat)
  | crashed
deriving DecidableEq

/-- ASCII whitespace, as stripped by Python `str.strip()`. -/
def pySpace (c : Char) : Bool :=
  c = ' ' || c = '\t' || c = '\n' || c = '\r' || c = '\x0b' || c = '\x0c'

/-- Python `str.strip()`: drop leading and trailing whitespace. -/
def pyStrip (s : String) : String :=
  String.mk (((s.toList.dropWhile pySpace).reverse.dropWhile pySpace).reverse)

/-- Python `str.lower()` for ASCII text. -/
def pyLower (s : String) : String :=
  String.mk (s.toList.map Char.toLower)

/-- Value of a nonempty all-digit character run, else `none`. -/
def digitsVal (cs : List Char) : Option Nat :=
  if cs.isEmpty then none
  else if cs.all Char.isDigit then
    some (cs.foldl (fun acc c => acc * 10 + (c.toNat - '0'.toNat)) 0)
  else none

/-- Python `int(s)` for an already-stripped string: optional sign followed by
a digit run, `none` when the call would raise `ValueError`. -/
def pyParseInt (s : String) : Option Int :=
  match s.toList with
  | '-' :: rest => (digitsVal rest).map (fun n => -(n : Int))
  | '+' :: rest => (digitsVal rest).map (fun n => (n : Int))
  | cs => (digitsVal cs).map (fun n => (n : Int))

/-- `get_step` of the source: 1 when the flag file is absent; otherwise
`int(f.read().strip())`, with any exception (unreadable file, invalid
integer) caught and turned into 1. -/
def get_step (fs : FileState) : Int :=
  match fs with
  | FileState.absent => 1
  | FileState.unreadable => 1
  | FileState.readable s =>
    match pyParseInt (pyStrip s) with
    | some n => n
    | none => 1

/-- Read-only facts the invocation observes about its surroundings. -/
structure Env where
  cmdOutcome : Nat → CmdOutcome
  confirmInput : String
  stepWriteOk : Bool
  configTxtExists : Bool
  deviceExists : String → Bool
  euid : Nat
  username : String
  network : String
  serverIp : String
  scriptPath : String

/-- Mutable state threaded through one invocation: the checkpoint file, the
count of commands executed so far, and the event trace. -/
structure St where
  flagFile : FileState
  nCmds : Nat
  trace : List Event
deriving DecidableEq

/-- The invocation monad: reader over `Env`, state over `St`, early
termination through `Except Halt`. -/
abbrev M (α : Type) : Type := Env → St → Except Halt α × St

/-- Sequencing of the invocation monad: an early termination in the first
computation skips the second. -/
def mBind {α β : Type} (x : M α) (f : α → M β) : M β := fun env s =>
  match x env s with
  | (Except.ok a, s1) => f a env s1
  | (Except.error e, s1) => (Except.error e, s1)

instance : Monad M where
  pure a := fun _ s => (Except.ok a, s)
  bind := mBind

/-- State after one external command has been launched: the command counter
advances and the command is recorded. -/
def cmdEvSt (argv : List String) (s : St) : St :=
  { s with nCmds := s.nCmds + 1, trace := s.trace ++ [Event.cmd argv] }

/-- The diagnostic dump `run` prints on a `CalledProcessError`: the captured
stdout and stderr, each only when nonempty, each stripped. -/
def dumpEvents (r : CmdResult) : List Event :=
  (if r.stdout = "" then [] else [Event.printed ("--- STDOUT ---\n" ++ pyStrip r.stdout)]) ++
  (if r.stderr = "" then [] else [Event.printed ("--- STDERR ---\n" ++ pyStrip r.stderr)])

/-- `run(cmd, timeout)` of the source: returns the result on exit status 0;
on `CalledProcessError` dumps the captured output and exits 1; on
`TimeoutExpired` exits 1; a spawn failure is an uncaught exception. -/
def run (argv : List String) : M CmdResult := fun env s =>
  match env.cmdOutcome s.nCmds with
  | CmdOutcome.completed r =>
    if r.returncode = 0 then (Except.ok r, cmdEvSt argv s)
    else (Except.error (Halt.exit 1),
          { cmdEvSt argv s with trace := (cmdEvSt argv s).trace ++ dumpEvents r })
  | CmdOutcome.timedOut => (Except.error (Halt.exit 1), cmdEvSt argv s)
  | CmdOutcome.spawnFailed => (Except.error Halt.crashed, cmdEvSt argv s)

/-- `run_safe(cmd, timeout)` of the source: returns the completed result
whatever its exit status; `TimeoutExpired` and every other exception are
caught and turned into `None`. -/
def run_safe (argv : List String) : M (Option CmdResult) := fun env s =>
  match env.cmdOutcome s.nCmds with
  | CmdOutcome.completed r => (Except.ok (some r), cmdEvSt argv s)
  | _ => (Except.ok none, cmdEvSt argv s)

/-- `confirm_action(prompt)` of the source: reads a line, lowercases it, and
exits 0 unless the lowercased input is exactly the token yes. -/
def confirm_action (_prompt : String) : M Unit := fun env s =>
  let s1 : St := { s with trace := s.trace ++ [Event.confirm] }
  if pyLower env.confirmInput ≠ "yes" then (Except.error (Halt.exit 0), s1)
  else (Except.ok (), s1)

/-- `append_to_file(path, text)` of the source: the attempt is recorded; a
write error is caught and reported, so the computation always continues. -/
def append_to_file (path text : String) : M Unit := fun _ s =>
  (Except.ok (), { s with trace := s.trace ++ [Event.append path text] })

/-- A direct `open(path, "w")` write, used for the systemd unit file. -/
def write_file (path _text : String) : M Unit := fun _ s =>
  (Except.ok (), { s with trace := s.trace ++ [Event.fileWrite path] })

/-- `set_step(step)` of the source: overwrite the flag file with `str(step)`;
a write error is caught and reported, leaving the file unchanged, and the
computation continues either way. -/
def set_step (n : Int) : M Unit := fun env s =>
  if env.stepWriteOk then
    (Except.ok (), { s with flagFile := FileState.readable (toString n),
                            trace := s.trace ++ [Event.stepWrite n] })
  else (Except.ok (), { s with trace := s.trace ++ [Event.stepWrite n] })

/-- A call of `get_step()` on the current flag file. -/
def read_step : M Int := fun _ s => (Except.ok (get_step s.flagFile), s)

/-- `get_username()` of the source, an environment read. -/
def get_username : M String := fun env s => (Except.ok env.username, s)

/-- `get_network_address()` of the source: runs `hostname -I`; on success the
/24 network address computed from the first reported IP (abstracted as
`env.network`), on any failure the literal default. -/
def get_network_address : M String := fun env s =>
  match env.cmdOutcome s.nCmds with
  | CmdOutcome.completed r =>
    if r.returncode = 0 then (Except.ok env.network, cmdEvSt ["hostname", "-I"] s)
    else (Except.ok "192.168.0.0", cmdEvSt ["hostname", "-I"] s)
  | _ => (Except.ok "192.168.0.0", cmdEvSt ["hostname", "-I"] s)

/-- `get_server_ip()` of the source: runs `hostname -I`; the first reported
IP (abstracted as `env.serverIp`) on success, a placaeholder on failure. -/
def get_server_ip : M String := fun env s =>
  match env.cmdOutcome s.nCmds with
  | CmdOutcome.completed r =>
    if r.returncode = 0 then (Except.ok env.serverIp, cmdEvSt ["hostname", "-I"] s)
    else (Except.ok "서버IP", cmdEvSt ["hostname", "-I"] s)
  | _ => (Except.ok "서버IP", cmdEvSt ["hostname", "-I"] s)

/-- `get_uuid(device)` of the source: runs `blkid`; the stripped stdout on
success, `None` on any failure (all exceptions are caught). -/
def get_uuid (device : String) : M (Option String) := fun env s =>
  match env.cmdOutcome s.nCmds with
  | CmdOutcome.completed r =>
    if r.returncode = 0 then
      (Except.ok (some (pyStrip r.stdout)), cmdEvSt ["blkid", "-s", "UUID", "-o", "value", device] s)
    else (Except.ok none, cmdEvSt ["blkid", "-s", "UUID", "-o", "value", device] s)
  | _ => (Except.ok none, cmdEvSt ["blkid", "-s", "UUID", "-o", "value", device] s)

/-- `check_root()` of the source: exit 1 unless the effective uid is 0. -/
def check_root : M Unit := fun env s =>
  if env.euid ≠ 0 then (Except.error (Halt.exit 1), s) else (Except.ok (), s)

/-- The `os.path.exists("/boot/firmware/config.txt")` test of stage 1. -/
def config_txt_exists : M Bool := fun env s => (Except.ok env.configTxtExists, s)

/-- The `os.path.abspath(__file__)` read of `create_systemd_service`. -/
def get_script_path : M String := fun env s => (Except.ok env.scriptPath, s)

/-- Embeds a pure `Except` computation into the invocation monad. -/
def liftE {α : Type} (x : Except Halt α) : M α := fun _ s => (x, s)

/-- Configuration constant `RAID_LEVEL` of the source. -/
def RAID_LEVEL : Int := 10

/-- Configuration constant `RAID_DEVICES` of the source. -/
def RAID_DEVICES : List String := ["/dev/sda", "/dev/sdb", "/dev/sdc", "/dev/sdd"]

/-- Configuration constant `RAID_DEVICE_NAME` of the source. -/
def RAID_DEVICE_NAME : String := "/dev/md0"

/-- Configuration constant `FILESYSTEM_TYPE` of the source. -/
def FILESYSTEM_TYPE : String := "ext4"

/-- Configuration constant `MOUNT_POINT_BASE` of the source. -/
def MOUNT_POINT_BASE : String := "storage"

/-- Configuration constant `SAMBA_SHARE_NAME` of the source. -/
def SAMBA_SHARE_NAME : String := "Public"

/-- Configuration constant `CLAMAV_LOG_FILE` of the source. -/
def CLAMAV_LOG_FILE : String := "/var/log/clamav_scan.log"

/-- Configuration constant `FLASK_PORT` of the source. -/
def FLASK_PORT : Nat := 5000

/-- Constant `ALLOWED_RAID_LEVELS` of the source. -/
def ALLOWED_RAID_LEVELS : List Int := [0, 1, 5, 10]

/-- `validate_config()` of the source, with the two globals it reads
(`RAID_LEVEL` and `len(RAID_DEVICES)`) made explicit: exit 1 when the level
is not allowed; otherwise walk the elif chain of cardinality checks and
exit 1 when the matching check flags the device count as invalid. -/
def validate_config (raid_level : Int) (num_devices : Nat) : Except Halt Unit :=
  if raid_level ∉ ALLOWED_RAID_LEVELS then Except.error (Halt.exit 1)
  else
    let valid : Bool :=
      if raid_level = 1 ∧ num_devices ≠ 2 then false
      else if raid_level = 5 ∧ num_devices < 3 then false
      else if raid_level = 10 ∧ (num_devices < 4 ∨ num_devices % 2 ≠ 0) then false
      else if raid_level = 0 ∧ num_devices < 2 then false
      else true
    if valid then Except.ok () else Except.error (Halt.exit 1)

/-- The cardinality rule exactly as the specification words it: mirroring
(RAID 1) requires exactly 2 devices, parity (RAID 5) at least 3,
striped-mirror (RAID 10) an even count of at least 4, striping (RAID 0) at
least 2.  Stated from the spec, for comparison with `validate_config`. -/
def spec_cardinality_rule (raid_level : Int) (num_devices : Nat) : Prop :=
  if raid_level = 1 then num_devices = 2
  else if raid_level = 5 then 3 ≤ num_devices
  else if raid_level = 10 then 4 ≤ num_devices ∧ num_devices % 2 = 0
  else 2 ≤ num_devices

/-- `validate_devices()` of the source: collect the configured devices whose
paths do not exist; when any is missing, list the visible block devices
(best effort) and exit 1. -/
def validate_devices : M Unit := fun env s =>
  let missing := RAID_DEVICES.filter (fun d => !(env.deviceExists d))
  if missing.isEmpty then (Except.ok (), s)
  else (Except.error (Halt.exit 1), cmdEvSt ["lsblk", "-d", "-o", "NAME,SIZE,TYPE"] s)

/-- The `for device in RAID_DEVICES` wipe loop of stage 3. -/
def wipe_devices : List String → M Unit
  | [] => pure ()
  | d :: ds => do
    let _ ← run ["wipefs", "--all", d]
    wipe_devices ds

/-- Stage 1 of `setup`: base packages and the PCIe overlay, then persist
step 2 and reboot. -/
def stage1 : M Unit := do
  let _ ← run ["apt-get", "update"]
  let _ ← run ["apt-get", "install", "-y", "vim"]
  let ctx ← config_txt_exists
  let _ ← (if ctx then
    append_to_file "/boot/firmware/config.txt"
      "\n# PCIe HAT SSD 인식을 위한 설정\ndtparam=pciex1\ndtparam=pciex1_gen=3\n"
  else
    pure ())
  set_step 2
  let _ ← run ["reboot"]
  pure ()

/-- Stage 2 of `setup`: device validation and the remaining packages. -/
def stage2 : M Unit := do
  validate_devices
  let _ ← run ["apt-get", "install", "-y", "mdadm", "smartmontools", "samba", "ufw", "clamav"]
  set_step 3

/-- Stage 3 of `setup`: confirmation, then wipe every configured device. -/
def stage3 : M Unit := do
  confirm_action ("다음 디스크들의 모든 데이터를 영구적으로 삭제합니다: " ++
    String.intercalate ", " RAID_DEVICES)
  wipe_devices RAID_DEVICES
  set_step 4

/-- Stage 4 of `setup`: confirmation, then create the array. -/
def stage4 : M Unit := do
  confirm_action (RAID_DEVICE_NAME ++ "에 " ++ toString RAID_DEVICES.length ++
    "개의 디스크로 RAID " ++ toString RAID_LEVEL ++ "을 생성합니다.")
  let _ ← run (["mdadm", "--create", "--verbose", RAID_DEVICE_NAME,
    "--level=" ++ toString RAID_LEVEL,
    "--raid-devices=" ++ toString RAID_DEVICES.length] ++ RAID_DEVICES)
  set_step 5

/-- Stage 5 of `setup`: filesystem, mount, mdadm.conf and fstab
registration. -/
def stage5 (username mount_point : String) : M Unit := do
  let _ ← run ["mkfs." ++ FILESYSTEM_TYPE, RAID_DEVICE_NAME]
  let _ ← run ["mkdir", "-p", mount_point]
  let _ ← run ["mount", RAID_DEVICE_NAME, mount_point]
  let _ ← run ["chown", username ++ ":" ++ username, mount_point]
  let mdadm_detail ← run ["mdadm", "--detail", "--scan"]
  append_to_file "/etc/mdadm/mdadm.conf" mdadm_detail.stdout
  let _ ← run ["update-initramfs", "-u"]
  let device_uuid ← get_uuid RAID_DEVICE_NAME
  let _ ← (match device_uuid with
  | some u =>
    append_to_file "/etc/fstab"
      ("\nUUID=" ++ u ++ " " ++ mount_point ++ " " ++ FILESYSTEM_TYPE ++ " defaults,nofail 0 2\n")
  | none =>
    append_to_file "/etc/fstab"
      ("\n" ++ RAID_DEVICE_NAME ++ " " ++ mount_point ++ " " ++ FILESYSTEM_TYPE ++ " defaults,nofail 0 2\n"))
  set_step 6

/-- The Samba share block appended by stage 6. -/
def samba_block (username network mount_point : String) : String :=
  "\n[" ++ SAMBA_SHARE_NAME ++ "]\n   path = " ++ mount_point ++
  "\n   browseable = yes\n   writeable = yes\n   guest ok = yes\n   read only = no" ++
  "\n   create mask = 0775\n   directory mask = 0775\n   hosts allow = 127.0.0.1 " ++
  network ++ "/24\n   force user = " ++ username ++ "\n   force group = " ++ username ++ "\n"

/-- Stage 6 of `setup`: Samba configuration and service restart. -/
def stage6 (username network mount_point : String) : M Unit := do
  append_to_file "/etc/samba/smb.conf" (samba_block username network mount_point)
  let _ ← run ["systemctl", "restart", "smbd"]
  let _ ← run ["systemctl", "enable", "smbd"]
  set_step 7

/-- `setup_cron_jobs()` of the source: register the daily scan. -/
def setup_cron_jobs : M Unit := do
  let username ← get_username
  append_to_file "/etc/crontab"
    ("0 2 * * * root clamscan -r /home/" ++ username ++ "/" ++ MOUNT_POINT_BASE ++
     " > " ++ CLAMAV_LOG_FILE ++ " 2>&1\n")

/-- `setup_clamav()` of the source: a sequence of best-effort commands, none
of which can abort the invocation. -/
def setup_clamav : M Unit := do
  let _ ← run_safe ["systemctl", "stop", "clamav-freshclam"]
  let _ ← run_safe ["mkdir", "-p", "/var/log/clamav"]
  let _ ← run_safe ["touch", "/var/log/clamav/freshclam.log"]
  let _ ← run_safe ["chown", "clamav:clamav", "/var/log/clamav/freshclam.log"]
  let _ ← run_safe ["chmod", "644", "/var/log/clamav/freshclam.log"]
  let result ← run_safe ["pgrep", "freshclam"]
  let _ ← (match result with
  | some r =>
    if r.returncode = 0 then do
      let _ ← run_safe ["pkill", "freshclam"]
      pure ()
    else pure ()
  | none => pure ())
  let _ ← run_safe ["freshclam"]
  let _ ← run_safe ["systemctl", "start", "clamav-freshclam"]
  let _ ← run_safe ["systemctl", "enable", "clamav-freshclam"]
  pure ()

/-- Stage 7 of `setup`: firewall rules, cron registration, ClamAV setup. -/
def stage7 : M Unit := do
  let _ ← run ["ufw", "allow", "ssh"]
  let _ ← run ["ufw", "allow", "samba"]
  let _ ← run ["ufw", "allow", toString FLASK_PORT ++ "/tcp"]
  let _ ← run ["ufw", "--force", "enable"]
  setup_cron_jobs
  setup_clamav
  set_step 8

/-- `setup()` of the source: read the checkpoint, gather the environment
facts, and dispatch on the step ordinal through the elif chain; an ordinal
of 8 or more only reports completion, and an ordinal matching no branch
does nothing. -/
def setup : M Unit := do
  let step ← read_step
  let username ← get_username
  let network ← get_network_address
  let mount_point := "/home/" ++ username ++ "/" ++ MOUNT_POINT_BASE
  if step = 1 then stage1
  else if step = 2 then stage2
  else if step = 3 then stage3
  else if step = 4 then stage4
  else if step = 5 then stage5 username mount_point
  else if step = 6 then stage6 username network mount_point
  else if step = 7 then stage7
  else if step ≥ 8 then pure ()
  else pure ()

/-- The systemd unit file content written by `create_systemd_service`. -/
def service_content (service_dir service_script : String) : String :=
  "[Unit]\nDescription=NAS Dashboard Service\nAfter=network.target\n\n[Service]\n" ++
  "Type=simple\nUser=nobody\nGroup=nogroup\nWorkingDirectory=" ++ service_dir ++
  "\nExecStart=/usr/bin/python3 " ++ service_script ++ " --dashboard-only\n" ++
  "Restart=always\nRestartSec=10\nStandardOutput=journal\nStandardError=journal\n\n" ++
  "[Install]\nWantedBy=multi-user.target\n"

/-- `create_systemd_service()` of the source: copy the script, prepare the
log file, write the unit file, reload and enable the service. -/
def create_systemd_service : M Unit := do
  let script_path ← get_script_path
  let _username ← get_username
  let _ ← run ["mkdir", "-p", "/opt/nas-dashboard"]
  let _ ← run ["cp", script_path, "/opt/nas-dashboard/nas-dashboard.py"]
  let _ ← run ["chmod", "755", "/opt/nas-dashboard/nas-dashboard.py"]
  let _ ← run ["chown", "root:root", "/opt/nas-dashboard/nas-dashboard.py"]
  let _ ← run_safe ["touch", "/var/log/nas-dashboard.log"]
  let _ ← run_safe ["chmod", "666", "/var/log/nas-dashboard.log"]
  write_file "/etc/systemd/system/nas-dashboard.service"
    (service_content "/opt/nas-dashboard" "/opt/nas-dashboard/nas-dashboard.py")
  let _ ← run ["systemctl", "daemon-reload"]
  let _ ← run ["systemctl", "enable", "nas-dashboard.service"]
  pure ()

/-- `show_management_commands()` of the source: purely informational, but it
queries the server address with one external command. -/
def show_management_commands : M Unit := do
  let _ ← get_server_ip
  pure ()

/-- The tail of the `__main__` block: re-read the checkpoint and, once it
has reached 8, create the dashboard service, print the management help and
start the service. -/
def main_post : M Unit := do
  let step1 ← read_step
  if step1 ≥ 8 then do
    create_systemd_service
    show_management_commands
    let _ ← run ["systemctl", "start", "nas-dashboard"]
    pure ()
  else pure ()

/-- The normal-invocation path of the `__main__` block (the
`--dashboard-only` branch starts only the out-of-scope dashboard): root
check, one-time configuration validation, the stage dispatch, and, once the
checkpoint has reached 8, service creation and start. -/
def main_entry : M Unit := do
  check_root
  let step0 ← read_step
  let _ ← (if step0 = 1 then liftE (validate_config RAID_LEVEL RAID_DEVICES.length) else pure ())
  setup
  main_post

/-! Reasoning kit: properties of invocation computations concerning the
checkpoint file and the event trace, with composition rules. -/

/-- State reached after the unconditional environment queries at the top of
`setup`: exactly one external command (the network-address query) has been
recorded, and nothing else has changed. -/
def netSt (s : St) : St :=
  { s with nCmds := s.nCmds + 1, trace := s.trace ++ [Event.cmd ["hostname", "-I"]] }

/-- A recorded command that mutates the configured disks: a `wipefs` or
`mdadm` invocation. -/
def destructive_cmd (e : Event) : Bool :=
  match e with
  | Event.cmd (c :: _) => c = "wipefs" || c = "mdadm"
  | _ => false

/-- An external-command outcome that succeeded with empty-ish output. -/
def outcomeOk : CmdOutcome := CmdOutcome.completed ⟨0, "ok", ""⟩

/-- A concrete environment in which everything goes right. -/
def envAll : Env :=
  { cmdOutcome := fun _ => outcomeOk, confirmInput := "yes", stepWriteOk := true,
    configTxtExists := true, deviceExists := fun _ => true, euid := 0,
    username := "pi", network := "192.168.1.0", serverIp := "192.168.1.7",
    scriptPath := "/root/nas.py" }

/-- Like `envAll`, but the fourth command of the invocation (the `reboot` of
stage 1, after the network query and the two package commands) exits 1. -/
def envRebootFail : Env :=
  { envAll with cmdOutcome := fun n =>
      if n = 3 then CmdOutcome.completed ⟨1, "", "reboot failed"⟩ else outcomeOk }

/-- Like `envAll`, but the second command of the invocation (the package
install of stage 2, after the network query) exits 1. -/
def envStage2Fail : Env :=
  { envAll with cmdOutcome := fun n =>
      if n = 1 then CmdOutcome.completed ⟨1, "", "no package"⟩ else outcomeOk }

/-- Like `envAll`, but writes to the checkpoint file fail. -/
def envNoWrite : Env := { envAll with stepWriteOk := false }

/-- Like `envAll`, but the operator declines the confirmation. -/
def envDecline : Env := { envAll with confirmInput := "no" }

/-- Like `envAll`, but the operator answers the confirmation in capitals. -/
def envCaps : Env := { envAll with confirmInput := "YES" }

/-- Like `envAll`, but every command exits 1 with captured output. -/
def envNonZero : Env :=
  { envAll with cmdOutcome := fun _ => CmdOutcome.completed ⟨1, "out", "err"⟩ }

/-- A fresh invocation state over a given checkpoint file. -/
def st0 (f : FileState) : St := { flagFile := f, nCmds := 0, trace := [] }

/-- The computation never changes the checkpoint file, whatever happens. -/
def PreservesFlag {α : Type} (m : M α) : Prop :=
  ∀ env s, ((m env s).2).flagFile = s.flagFile

/-- When the computation halts early, the checkpoint file is unchanged. -/
def FlagErr {α : Type} (m : M α) : Prop :=
  ∀ env s e s2, m env s = (Except.error e, s2) → s2.flagFile = s.flagFile

/-- The computation leaves the checkpoint file unchanged or overwrites it
with the rendering of `k`. -/
def FlagInv {α : Type} (k : Int) (m : M α) : Prop :=
  ∀ env s r s2, m env s = (r, s2) →
    s2.flagFile = s.flagFile ∨ s2.flagFile = FileState.readable (toString k)

/-- When the checkpoint write succeeds and the computation returns normally,
the checkpoint file holds the rendering of `k`. -/
def FlagOk {α : Type} (k : Int) (m : M α) : Prop :=
  ∀ env s a s2, env.stepWriteOk = true → m env s = (Except.ok a, s2) →
    s2.flagFile = FileState.readable (toString k)

/-- The computation only appends to the event trace. -/
def TraceMono {α : Type} (m : M α) : Prop :=
  ∀ env s, ∃ t, ((m env s).2).trace = s.trace ++ t

lemma bind_def {α β : Type} (x : M α) (f : α → M β) : x >>= f = mBind x f := rfl

lemma pure_def {α : Type} (a : α) : (pure a : M α) = fun _ s => (Except.ok a, s) := rfl

lemma preservesFlag_bind {α β : Type} {x : M α} {f : α → M β}
    (hx : PreservesFlag x) (hf : ∀ a, PreservesFlag (f a)) :
    PreservesFlag (x >>= f) := by
  intro env s
  rw [bind_def]
  unfold mBind
  cases h : x env s with
  | mk r s1 =>
    have hx1 : s1.flagFile = s.flagFile := by
      have := hx env s; rw [h] at this; exact this
    cases r with
    | ok a => exact (hf a env s1).trans hx1
    | error e => exact hx1

lemma flagErr_of_preserves {α : Type} {x : M α} (h : PreservesFlag x) :
    FlagErr x := by
  intro env s e s2 heq
  have := h env s
  rw [heq] at this
  exact this

lemma flagErr_bind {α β : Type} {x : M α} {f : α → M β}
    (hx : PreservesFlag x) (hf : ∀ a, FlagErr (f a)) : FlagErr (x >>= f) := by
  intro env s e s2 heq
  rw [bind_def] at heq
  unfold mBind at heq
  cases h : x env s with
  | mk r s1 =>
    rw [h] at heq
    have hx1 : s1.flagFile = s.flagFile := by
      have := hx env s; rw [h] at this; exact this
    cases r with
    | ok a => exact (hf a env s1 e s2 heq).trans hx1
    | error e2 =>
      cases heq
      exact hx1

lemma flagInv_of_preserves {α : Type} (k : Int) {x : M α}
    (h : PreservesFlag x) : FlagInv k x := by
  intro env s r s2 heq
  left
  have := h env s
  rw [heq] at this
  exact this

lemma flagInv_bind_left {α β : Type} {k : Int} {x : M α} {f : α → M β}
    (hx : PreservesFlag x) (hf : ∀ a, FlagInv k (f a)) : FlagInv k (x >>= f) := by
  intro env s r s2 heq
  rw [bind_def] at heq
  unfold mBind at heq
  cases h : x env s with
  | mk r1 s1 =>
    rw [h] at heq
    have hx1 : s1.flagFile = s.flagFile := by
      have := hx env s; rw [h] at this; exact this
    cases r1 with
    | ok a =>
      rcases hf a env s1 r s2 heq with h2 | h2
      · left; exact h2.trans hx1
      · right; exact h2
    | error e2 =>
      cases heq
      left; exact hx1

lemma flagInv_bind_right {α β : Type} {k : Int} {x : M α} {f : α → M β}
    (hx : FlagInv k x) (hf : ∀ a, PreservesFlag (f a)) : FlagInv k (x >>= f) := by
  intro env s r s2 heq
  rw [bind_def] at heq
  unfold mBind at heq
  cases h : x env s with
  | mk r1 s1 =>
    rw [h] at heq
    cases r1 with
    | ok a =>
      have heq2 : f a env s1 = (r, s2) := heq
      have hs2 : s2.flagFile = s1.flagFile := by
        have := hf a env s1; rw [heq2] at this; exact this
      rcases hx env s (Except.ok a) s1 h with h2 | h2
      · left; exact hs2.trans h2
      · right; exact hs2.trans h2
    | error e2 =>
      cases heq
      exact hx env s _ _ h

lemma flagOk_bind_left {α β : Type} {k : Int} {x : M α} {f : α → M β}
    (hf : ∀ a, FlagOk k (f a)) : FlagOk k (x >>= f) := by
  intro env s a s2 hw heq
  rw [bind_def] at heq
  unfold mBind at heq
  cases h : x env s with
  | mk r1 s1 =>
    rw [h] at heq
    cases r1 with
    | ok b => exact hf b env s1 a s2 hw heq
    | error e2 => simp at heq

lemma flagOk_bind_right {α β : Type} {k : Int} {x : M α} {f : α → M β}
    (hx : FlagOk k x) (hf : ∀ a, PreservesFlag (f a)) : FlagOk k (x >>= f) := by
  intro env s a s2 hw heq
  rw [bind_def] at heq
  unfold mBind at heq
  cases h : x env s with
  | mk r1 s1 =>
    rw [h] at heq
    cases r1 with
    | ok b =>
      have heq2 : f b env s1 = (Except.ok a, s2) := heq
      have hs2 : s2.flagFile = s1.flagFile := by
        have := hf b env s1; rw [heq2] at this; exact this
      exact hs2.trans (hx env s b s1 hw h)
    | error e2 => simp at heq

lemma traceMono_bind {α β : Type} {x : M α} {f : α → M β}
    (hx : TraceMono x) (hf : ∀ a, TraceMono (f a)) : TraceMono (x >>= f) := by
  intro env s
  rw [bind_def]
  unfold mBind
  cases h : x env s with
  | mk r1 s1 =>
    obtain ⟨t1, ht1⟩ : ∃ t, s1.trace = s.trace ++ t := by
      have := hx env s; rw [h] at this; exact this
    cases r1 with
    | ok a =>
      obtain ⟨t2, ht2⟩ := hf a env s1
      exact ⟨t1 ++ t2, by rw [ht2, ht1, List.append_assoc]⟩
    | error e => exact ⟨t1, ht1⟩

lemma preservesFlag_pure {α : Type} (a : α) : PreservesFlag (pure a : M α) := by
  intro env s; rfl

lemma traceMono_pure {α : Type} (a : α) : TraceMono (pure a : M α) := by
  intro env s; exact ⟨[], by simp [pure_def]⟩

lemma preservesFlag_ite {α : Type} {c : Prop} [Decidable c] {x y : M α}
    (hx : PreservesFlag x) (hy : PreservesFlag y) :
    PreservesFlag (if c then x else y) := by
  by_cases h : c
  · rw [if_pos h]; exact hx
  · rw [if_neg h]; exact hy

lemma flagErr_ite {α : Type} {c : Prop} [Decidable c] {x y : M α}
    (hx : FlagErr x) (hy : FlagErr y) : FlagErr (if c then x else y) := by
  by_cases h : c
  · rw [if_pos h]; exact hx
  · rw [if_neg h]; exact hy

lemma flagInv_ite {α : Type} {k : Int} {c : Prop} [Decidable c] {x y : M α}
    (hx : FlagInv k x) (hy : FlagInv k y) : FlagInv k (if c then x else y) := by
  by_cases h : c
  · rw [if_pos h]; exact hx
  · rw [if_neg h]; exact hy

lemma flagOk_ite {α : Type} {k : Int} {c : Prop} [Decidable c] {x y : M α}
    (hx : FlagOk k x) (hy : FlagOk k y) : FlagOk k (if c then x else y) := by
  by_cases h : c
  · rw [if_pos h]; exact hx
  · rw [if_neg h]; exact hy

lemma traceMono_ite {α : Type} {c : Prop} [Decidable c] {x y : M α}
    (hx : TraceMono x) (hy : TraceMono y) : TraceMono (if c then x else y) := by
  by_cases h : c
  · rw [if_pos h]; exact hx
  · rw [if_neg h]; exact hy

lemma preservesFlag_run (argv : List String) : PreservesFlag (run argv) := by
  intro env s
  unfold run
  cases env.cmdOutcome s.nCmds with
  | completed r => by_cases h : r.returncode = 0 <;> simp [h, cmdEvSt]
  | timedOut => simp [cmdEvSt]
  | spawnFailed => simp [cmdEvSt]

lemma preservesFlag_run_safe (argv : List String) : PreservesFlag (run_safe argv) := by
  intro env s
  unfold run_safe
  cases env.cmdOutcome s.nCmds with
  | completed r => simp [cmdEvSt]
  | timedOut => simp [cmdEvSt]
  | spawnFailed => simp [cmdEvSt]

lemma preservesFlag_confirm (p : String) : PreservesFlag (confirm_action p) := by
  intro env s
  unfold confirm_action
  by_cases h : pyLower env.confirmInput ≠ "yes" <;> simp [h]

lemma preservesFlag_append (path text : String) :
    PreservesFlag (append_to_file path text) := by
  intro env s; rfl

lemma preservesFlag_write_file (path text : String) :
    PreservesFlag (write_file path text) := by
  intro env s; rfl

lemma preservesFlag_read_step : PreservesFlag read_step := by
  intro env s; rfl

lemma preservesFlag_get_username : PreservesFlag get_username := by
  intro env s; rfl

lemma preservesFlag_get_network_address : PreservesFlag get_network_address := by
  intro env s
  unfold get_network_address
  cases env.cmdOutcome s.nCmds with
  | completed r => by_cases h : r.returncode = 0 <;> simp [h, cmdEvSt]
  | timedOut => simp [cmdEvSt]
  | spawnFailed => simp [cmdEvSt]

lemma preservesFlag_get_server_ip : PreservesFlag get_server_ip := by
  intro env s
  unfold get_server_ip
  cases env.cmdOutcome s.nCmds with
  | completed r => by_cases h : r.returncode = 0 <;> simp [h, cmdEvSt]
  | timedOut => simp [cmdEvSt]
  | spawnFailed => simp [cmdEvSt]

lemma preservesFlag_get_uuid (d : String) : PreservesFlag (get_uuid d) := by
  intro env s
  unfold get_uuid
  cases env.cmdOutcome s.nCmds with
  | completed r => by_cases h : r.returncode = 0 <;> simp [h, cmdEvSt]
  | timedOut => simp [cmdEvSt]
  | spawnFailed => simp [cmdEvSt]

lemma preservesFlag_check_root : PreservesFlag check_root := by
  intro env s
  unfold check_root
  by_cases h : env.euid ≠ 0 <;> simp [h]

lemma preservesFlag_config_txt_exists : PreservesFlag config_txt_exists := by
  intro env s; rfl

lemma preservesFlag_get_script_path : PreservesFlag get_script_path := by
  intro env s; rfl

lemma preservesFlag_liftE {α : Type} (x : Except Halt α) : PreservesFlag (liftE x) := by
  intro env s; rfl

lemma preservesFlag_validate_devices : PreservesFlag validate_devices := by
  intro env s
  unfold validate_devices
  by_cases h : (RAID_DEVICES.filter (fun d => !(env.deviceExists d))).isEmpty <;>
    simp [h, cmdEvSt]

lemma set_step_never_fails (n : Int) :
    ∀ env s, ∃ s2, set_step n env s = (Except.ok (), s2) := by
  intro env s
  unfold set_step
  by_cases h : env.stepWriteOk = true <;> simp [h]

lemma flagErr_set_step (n : Int) : FlagErr (set_step n) := by
  intro env s e s2 heq
  obtain ⟨s3, h3⟩ := set_step_never_fails n env s
  rw [h3] at heq
  simp at heq

lemma flagInv_set_step (k : Int) : FlagInv k (set_step k) := by
  intro env s r s2 heq
  unfold set_step at heq
  by_cases h : env.stepWriteOk = true
  · rw [if_pos h] at heq
    cases heq
    right; rfl
  · rw [if_neg h] at heq
    cases heq
    left; rfl

lemma flagOk_set_step (k : Int) : FlagOk k (set_step k) := by
  intro env s a s2 hw heq
  unfold set_step at heq
  rw [if_pos hw] at heq
  cases heq
  rfl

lemma preservesFlag_wipe_devices (l : List String) :
    PreservesFlag (wipe_devices l) := by
  induction l with
  | nil => exact preservesFlag_pure ()
  | cons d ds ih =>
    unfold wipe_devices
    exact preservesFlag_bind (preservesFlag_run _) (fun _ => ih)

lemma traceMono_run (argv : List String) : TraceMono (run argv) := by
  intro env s
  unfold run
  cases env.cmdOutcome s.nCmds with
  | completed r =>
    by_cases h : r.returncode = 0
    · exact ⟨[Event.cmd argv], by simp [h, cmdEvSt]⟩
    · exact ⟨[Event.cmd argv] ++ dumpEvents r, by simp [h, cmdEvSt]⟩
  | timedOut => exact ⟨[Event.cmd argv], by simp [cmdEvSt]⟩
  | spawnFailed => exact ⟨[Event.cmd argv], by simp [cmdEvSt]⟩

lemma traceMono_set_step (n : Int) : TraceMono (set_step n) := by
  intro env s
  unfold set_step
  by_cases h : env.stepWriteOk = true <;>
    exact ⟨[Event.stepWrite n], by simp [h]⟩

lemma traceMono_wipe_devices (l : List String) : TraceMono (wipe_devices l) := by
  induction l with
  | nil => exact traceMono_pure ()
  | cons d ds ih =>
    unfold wipe_devices
    exact traceMono_bind (traceMono_run _) (fun _ => ih)

lemma preservesFlag_setup_cron_jobs : PreservesFlag setup_cron_jobs := by
  unfold setup_cron_jobs
  exact preservesFlag_bind preservesFlag_get_username (fun _ => preservesFlag_append _ _)

lemma preservesFlag_setup_clamav : PreservesFlag setup_clamav := by
  unfold setup_clamav
  apply preservesFlag_bind (preservesFlag_run_safe _); intro _
  apply preservesFlag_bind (preservesFlag_run_safe _); intro _
  apply preservesFlag_bind (preservesFlag_run_safe _); intro _
  apply preservesFlag_bind (preservesFlag_run_safe _); intro _
  apply preservesFlag_bind (preservesFlag_run_safe _); intro _
  apply preservesFlag_bind (preservesFlag_run_safe _); intro result
  apply preservesFlag_bind
  · cases result with
    | some r =>
      exact preservesFlag_ite
        (preservesFlag_bind (preservesFlag_run_safe _) (fun _ => preservesFlag_pure ()))
        (preservesFlag_pure ())
    | none => exact preservesFlag_pure ()
  · intro _
    apply preservesFlag_bind (preservesFlag_run_safe _); intro _
    apply preservesFlag_bind (preservesFlag_run_safe _); intro _
    exact preservesFlag_bind (preservesFlag_run_safe _) (fun _ => preservesFlag_pure ())

lemma flagErr_stage2 : FlagErr stage2 := by
  unfold stage2
  apply flagErr_bind preservesFlag_validate_devices; intro _
  apply flagErr_bind (preservesFlag_run _); intro _
  exact flagErr_set_step 3

lemma flagErr_stage3 : FlagErr stage3 := by
  unfold stage3
  apply flagErr_bind (preservesFlag_confirm _); intro _
  apply flagErr_bind (preservesFlag_wipe_devices _); intro _
  exact flagErr_set_step 4

lemma flagErr_stage4 : FlagErr stage4 := by
  unfold stage4
  apply flagErr_bind (preservesFlag_confirm _); intro _
  apply flagErr_bind (preservesFlag_run _); intro _
  exact flagErr_set_step 5

lemma flagErr_stage5 (u m : String) : FlagErr (stage5 u m) := by
  unfold stage5
  apply flagErr_bind (preservesFlag_run _); intro _
  apply flagErr_bind (preservesFlag_run _); intro _
  apply flagErr_bind (preservesFlag_run _); intro _
  apply flagErr_bind (preservesFlag_run _); intro _
  apply flagErr_bind (preservesFlag_run _); intro _
  apply flagErr_bind (preservesFlag_append _ _); intro _
  apply flagErr_bind (preservesFlag_run _); intro _
  apply flagErr_bind (preservesFlag_get_uuid _); intro uu
  refine flagErr_bind ?_ (fun _ => flagErr_set_step 6)
  cases uu with
  | some u2 => exact preservesFlag_append _ _
  | none => exact preservesFlag_append _ _

lemma flagErr_stage6 (u n m : String) : FlagErr (stage6 u n m) := by
  unfold stage6
  apply flagErr_bind (preservesFlag_append _ _); intro _
  apply flagErr_bind (preservesFlag_run _); intro _
  apply flagErr_bind (preservesFlag_run _); intro _
  exact flagErr_set_step 7

lemma flagErr_stage7 : FlagErr stage7 := by
  unfold stage7
  apply flagErr_bind (preservesFlag_run _); intro _
  apply flagErr_bind (preservesFlag_run _); intro _
  apply flagErr_bind (preservesFlag_run _); intro _
  apply flagErr_bind (preservesFlag_run _); intro _
  apply flagErr_bind preservesFlag_setup_cron_jobs; intro _
  apply flagErr_bind preservesFlag_setup_clamav; intro _
  exact flagErr_set_step 8

lemma flagInv_stage1 : FlagInv 2 stage1 := by
  unfold stage1
  apply flagInv_bind_left (preservesFlag_run _); intro _
  apply flagInv_bind_left (preservesFlag_run _); intro _
  apply flagInv_bind_left preservesFlag_config_txt_exists; intro ctx
  apply flagInv_bind_left
    (preservesFlag_ite (preservesFlag_append _ _) (preservesFlag_pure ())); intro _
  apply flagInv_bind_right (flagInv_set_step 2); intro _
  exact preservesFlag_bind (preservesFlag_run _) (fun _ => preservesFlag_pure ())

lemma flagInv_stage2 : FlagInv 3 stage2 := by
  unfold stage2
  apply flagInv_bind_left preservesFlag_validate_devices; intro _
  apply flagInv_bind_left (preservesFlag_run _); intro _
  exact flagInv_set_step 3

lemma flagInv_stage3 : FlagInv 4 stage3 := by
  unfold stage3
  apply flagInv_bind_left (preservesFlag_confirm _); intro _
  apply flagInv_bind_left (preservesFlag_wipe_devices _); intro _
  exact flagInv_set_step 4

lemma flagInv_stage4 : FlagInv 5 stage4 := by
  unfold stage4
  apply flagInv_bind_left (preservesFlag_confirm _); intro _
  apply flagInv_bind_left (preservesFlag_run _); intro _
  exact flagInv_set_step 5

lemma flagInv_stage5 (u m : String) : FlagInv 6 (stage5 u m) := by
  unfold stage5
  apply flagInv_bind_left (preservesFlag_run _); intro _
  apply flagInv_bind_left (preservesFlag_run _); intro _
  apply flagInv_bind_left (preservesFlag_run _); intro _
  apply flagInv_bind_left (preservesFlag_run _); intro _
  apply flagInv_bind_left (preservesFlag_run _); intro _
  apply flagInv_bind_left (preservesFlag_append _ _); intro _
  apply flagInv_bind_left (preservesFlag_run _); intro _
  apply flagInv_bind_left (preservesFlag_get_uuid _); intro uu
  refine flagInv_bind_left ?_ (fun _ => flagInv_set_step 6)
  cases uu with
  | some u2 => exact preservesFlag_append _ _
  | none => exact preservesFlag_append _ _

lemma flagInv_stage6 (u n m : String) : FlagInv 7 (stage6 u n m) := by
  unfold stage6
  apply flagInv_bind_left (preservesFlag_append _ _); intro _
  apply flagInv_bind_left (preservesFlag_run _); intro _
  apply flagInv_bind_left (preservesFlag_run _); intro _
  exact flagInv_set_step 7

lemma flagInv_stage7 : FlagInv 8 stage7 := by
  unfold stage7
  apply flagInv_bind_left (preservesFlag_run _); intro _
  apply flagInv_bind_left (preservesFlag_run _); intro _
  apply flagInv_bind_left (preservesFlag_run _); intro _
  apply flagInv_bind_left (preservesFlag_run _); intro _
  apply flagInv_bind_left preservesFlag_setup_cron_jobs; intro _
  apply flagInv_bind_left preservesFlag_setup_clamav; intro _
  exact flagInv_set_step 8

lemma flagOk_stage1 : FlagOk 2 stage1 := by
  unfold stage1
  apply flagOk_bind_left; intro _
  apply flagOk_bind_left; intro _
  apply flagOk_bind_left; intro _
  apply flagOk_bind_left; intro _
  apply flagOk_bind_right (flagOk_set_step 2); intro _
  exact preservesFlag_bind (preservesFlag_run _) (fun _ => preservesFlag_pure ())

lemma flagOk_stage2 : FlagOk 3 stage2 := by
  unfold stage2
  apply flagOk_bind_left; intro _
  apply flagOk_bind_left; intro _
  exact flagOk_set_step 3

lemma flagOk_stage3 : FlagOk 4 stage3 := by
  unfold stage3
  apply flagOk_bind_left; intro _
  apply flagOk_bind_left; intro _
  exact flagOk_set_step 4

lemma flagOk_stage4 : FlagOk 5 stage4 := by
  unfold stage4
  apply flagOk_bind_left; intro _
  apply flagOk_bind_left; intro _
  exact flagOk_set_step 5

lemma flagOk_stage5 (u m : String) : FlagOk 6 (stage5 u m) := by
  unfold stage5
  apply flagOk_bind_left; intro _
  apply flagOk_bind_left; intro _
  apply flagOk_bind_left; intro _
  apply flagOk_bind_left; intro _
  apply flagOk_bind_left; intro _
  apply flagOk_bind_left; intro _
  apply flagOk_bind_left; intro _
  apply flagOk_bind_left; intro uu
  apply flagOk_bind_left; intro _
  exact flagOk_set_step 6

lemma flagOk_stage6 (u n m : String) : FlagOk 7 (stage6 u n m) := by
  unfold stage6
  apply flagOk_bind_left; intro _
  apply flagOk_bind_left; intro _
  apply flagOk_bind_left; intro _
  exact flagOk_set_step 7

lemma flagOk_stage7 : FlagOk 8 stage7 := by
  unfold stage7
  apply flagOk_bind_left; intro _
  apply flagOk_bind_left; intro _
  apply flagOk_bind_left; intro _
  apply flagOk_bind_left; intro _
  apply flagOk_bind_left; intro _
  apply flagOk_bind_left; intro _
  exact flagOk_set_step 8

lemma get_network_address_eq (env : Env) (s : St) :
    ∃ v, get_network_address env s = (Except.ok v, netSt s) := by
  unfold get_network_address
  cases env.cmdOutcome s.nCmds with
  | completed r =>
    by_cases h : r.returncode = 0
    · exact ⟨env.network, by simp [h, cmdEvSt, netSt]⟩
    · exact ⟨"192.168.0.0", by simp [h, cmdEvSt, netSt]⟩
  | timedOut => exact ⟨"192.168.0.0", rfl⟩
  | spawnFailed => exact ⟨"192.168.0.0", rfl⟩

/-- Unfolding of `setup`: the preliminary reads leave the state at `netSt s`
and the dispatch runs from there, keyed on the checkpoint ordinal. -/
lemma setup_apply (env : Env) (s : St) :
    ∃ net, setup env s =
      (if get_step s.flagFile = 1 then stage1
       else if get_step s.flagFile = 2 then stage2
       else if get_step s.flagFile = 3 then stage3
       else if get_step s.flagFile = 4 then stage4
       else if get_step s.flagFile = 5 then
         stage5 env.username ("/home/" ++ env.username ++ "/" ++ MOUNT_POINT_BASE)
       else if get_step s.flagFile = 6 then
         stage6 env.username net ("/home/" ++ env.username ++ "/" ++ MOUNT_POINT_BASE)
       else if get_step s.flagFile = 7 then stage7
       else if get_step s.flagFile ≥ 8 then pure ()
       else pure ()) env (netSt s) := by
  obtain ⟨v, hv⟩ := get_network_address_eq env s
  refine ⟨v, ?_⟩
  simp only [setup, bind_def, mBind, read_step, get_username, hv]

/-- At a checkpoint ordinal of 8 or more, `setup` runs only the preliminary
environment queries and reports completion. -/
lemma setup_ge8 (env : Env) (s : St) (h : 8 ≤ get_step s.flagFile) :
    setup env s = (Except.ok (), netSt s) := by
  obtain ⟨net, hs⟩ := setup_apply env s
  rw [hs]
  rw [if_neg (by omega : ¬ get_step s.flagFile = 1)]
  rw [if_neg (by omega : ¬ get_step s.flagFile = 2)]
  rw [if_neg (by omega : ¬ get_step s.flagFile = 3)]
  rw [if_neg (by omega : ¬ get_step s.flagFile = 4)]
  rw [if_neg (by omega : ¬ get_step s.flagFile = 5)]
  rw [if_neg (by omega : ¬ get_step s.flagFile = 6)]
  rw [if_neg (by omega : ¬ get_step s.flagFile = 7)]
  rw [if_pos (by omega : get_step s.flagFile ≥ 8)]
  rfl

/-- At a checkpoint ordinal of 0 or less, no branch of the `setup` dispatch
matches, so only the preliminary environment queries run. -/
lemma setup_le0 (env : Env) (s : St) (h : get_step s.flagFile ≤ 0) :
    setup env s = (Except.ok (), netSt s) := by
  obtain ⟨net, hs⟩ := setup_apply env s
  rw [hs]
  rw [if_neg (by omega : ¬ get_step s.flagFile = 1)]
  rw [if_neg (by omega : ¬ get_step s.flagFile = 2)]
  rw [if_neg (by omega : ¬ get_step s.flagFile = 3)]
  rw [if_neg (by omega : ¬ get_step s.flagFile = 4)]
  rw [if_neg (by omega : ¬ get_step s.flagFile = 5)]
  rw [if_neg (by omega : ¬ get_step s.flagFile = 6)]
  rw [if_neg (by omega : ¬ get_step s.flagFile = 7)]
  rw [if_neg (by omega : ¬ get_step s.flagFile ≥ 8)]
  rfl

/-- When `setup` halts early on an invocation that dispatched to one of the
stages 2 through 7, the checkpoint file is unchanged. -/
lemma setup_err_flag (env : Env) (s : St) (e : Halt) (s2 : St)
    (hlo : 2 ≤ get_step s.flagFile) (hhi : get_step s.flagFile ≤ 7)
    (heq : setup env s = (Except.error e, s2)) : s2.flagFile = s.flagFile := by
  obtain ⟨net, hs⟩ := setup_apply env s
  rw [hs] at heq
  rw [if_neg (by omega : ¬ get_step s.flagFile = 1)] at heq
  by_cases h2 : get_step s.flagFile = 2
  · rw [if_pos h2] at heq
    exact flagErr_stage2 env (netSt s) e s2 heq
  rw [if_neg h2] at heq
  by_cases h3 : get_step s.flagFile = 3
  · rw [if_pos h3] at heq
    exact flagErr_stage3 env (netSt s) e s2 heq
  rw [if_neg h3] at heq
  by_cases h4 : get_step s.flagFile = 4
  · rw [if_pos h4] at heq
    exact flagErr_stage4 env (netSt s) e s2 heq
  rw [if_neg h4] at heq
  by_cases h5 : get_step s.flagFile = 5
  · rw [if_pos h5] at heq
    exact flagErr_stage5 _ _ env (netSt s) e s2 heq
  rw [if_neg h5] at heq
  by_cases h6 : get_step s.flagFile = 6
  · rw [if_pos h6] at heq
    exact flagErr_stage6 _ _ _ env (netSt s) e s2 heq
  rw [if_neg h6] at heq
  by_cases h7 : get_step s.flagFile = 7
  · rw [if_pos h7] at heq
    exact flagErr_stage7 env (netSt s) e s2 heq
  omega

/-- When `setup` returns normally from an invocation that dispatched to one
of the stages 1 through 7 and the checkpoint write succeeded, the
checkpoint ordinal has advanced by exactly one. -/
lemma setup_ok_step (env : Env) (s : St) (a : Unit) (s2 : St)
    (hw : env.stepWriteOk = true)
    (hlo : 1 ≤ get_step s.flagFile) (hhi : get_step s.flagFile ≤ 7)
    (heq : setup env s = (Except.ok a, s2)) :
    get_step s2.flagFile = get_step s.flagFile + 1 := by
  obtain ⟨net, hs⟩ := setup_apply env s
  rw [hs] at heq
  by_cases h1 : get_step s.flagFile = 1
  · rw [if_pos h1] at heq
    rw [flagOk_stage1 env (netSt s) a s2 hw heq, h1]; decide
  rw [if_neg h1] at heq
  by_cases h2 : get_step s.flagFile = 2
  · rw [if_pos h2] at heq
    rw [flagOk_stage2 env (netSt s) a s2 hw heq, h2]; decide
  rw [if_neg h2] at heq
  by_cases h3 : get_step s.flagFile = 3
  · rw [if_pos h3] at heq
    rw [flagOk_stage3 env (netSt s) a s2 hw heq, h3]; decide
  rw [if_neg h3] at heq
  by_cases h4 : get_step s.flagFile = 4
  · rw [if_pos h4] at heq
    rw [flagOk_stage4 env (netSt s) a s2 hw heq, h4]; decide
  rw [if_neg h4] at heq
  by_cases h5 : get_step s.flagFile = 5
  · rw [if_pos h5] at heq
    rw [flagOk_stage5 _ _ env (netSt s) a s2 hw heq, h5]; decide
  rw [if_neg h5] at heq
  by_cases h6 : get_step s.flagFile = 6
  · rw [if_pos h6] at heq
    rw [flagOk_stage6 _ _ _ env (netSt s) a s2 hw heq, h6]; decide
  rw [if_neg h6] at heq
  by_cases h7 : get_step s.flagFile = 7
  · rw [if_pos h7] at heq
    rw [flagOk_stage7 env (netSt s) a s2 hw heq, h7]; decide
  omega

/-- Whatever happens during `setup`, the checkpoint ordinal afterwards is
either unchanged or the prior ordinal plus one. -/
lemma setup_flag_options (env : Env) (s : St) (r : Except Halt Unit) (s2 : St)
    (heq : setup env s = (r, s2)) :
    get_step s2.flagFile = get_step s.flagFile ∨
    get_step s2.flagFile = get_step s.flagFile + 1 := by
  obtain ⟨net, hs⟩ := setup_apply env s
  rw [hs] at heq
  by_cases h1 : get_step s.flagFile = 1
  · rw [if_pos h1] at heq
    rcases flagInv_stage1 env (netSt s) r s2 heq with h | h
    · left; rw [h]; rfl
    · right; rw [h, h1]; decide
  rw [if_neg h1] at heq
  by_cases h2 : get_step s.flagFile = 2
  · rw [if_pos h2] at heq
    rcases flagInv_stage2 env (netSt s) r s2 heq with h | h
    · left; rw [h]; rfl
    · right; rw [h, h2]; decide
  rw [if_neg h2] at heq
  by_cases h3 : get_step s.flagFile = 3
  · rw [if_pos h3] at heq
    rcases flagInv_stage3 env (netSt s) r s2 heq with h | h
    · left; rw [h]; rfl
    · right; rw [h, h3]; decide
  rw [if_neg h3] at heq
  by_cases h4 : get_step s.flagFile = 4
  · rw [if_pos h4] at heq
    rcases flagInv_stage4 env (netSt s) r s2 heq with h | h
    · left; rw [h]; rfl
    · right; rw [h, h4]; decide
  rw [if_neg h4] at heq
  by_cases h5 : get_step s.flagFile = 5
  · rw [if_pos h5] at heq
    rcases flagInv_stage5 _ _ env (netSt s) r s2 heq with h | h
    · left; rw [h]; rfl
    · right; rw [h, h5]; decide
  rw [if_neg h5] at heq
  by_cases h6 : get_step s.flagFile = 6
  · rw [if_pos h6] at heq
    rcases flagInv_stage6 _ _ _ env (netSt s) r s2 heq with h | h
    · left; rw [h]; rfl
    · right; rw [h, h6]; decide
  rw [if_neg h6] at heq
  by_cases h7 : get_step s.flagFile = 7
  · rw [if_pos h7] at heq
    rcases flagInv_stage7 env (netSt s) r s2 heq with h | h
    · left; rw [h]; rfl
    · right; rw [h, h7]; decide
  rw [if_neg h7] at heq
  by_cases h8 : get_step s.flagFile ≥ 8
  · rw [if_pos h8] at heq
    have heq2 : ((Except.ok (), netSt s) : Except Halt Unit × St) = (r, s2) := heq
    cases heq2
    left; rfl
  · rw [if_neg h8] at heq
    have heq2 : ((Except.ok (), netSt s) : Except Halt Unit × St) = (r, s2) := heq
    cases heq2
    left; rfl

/-- When the very first package command of stage 1 fails, the stage halts
early and the checkpoint file is unchanged. -/
lemma stage1_first_cmd_fatal (env : Env) (s : St)
    (h : (env.cmdOutcome s.nCmds).isFatal = true) :
    (∃ e, (stage1 env s).1 = Except.error e) ∧
    ((stage1 env s).2).flagFile = s.flagFile := by
  unfold stage1
  rw [bind_def]
  unfold mBind
  cases hc : env.cmdOutcome s.nCmds with
  | completed r =>
    have hr : ¬ r.returncode = 0 := by
      rw [hc] at h
      simpa [CmdOutcome.isFatal] using h
    constructor
    · exact ⟨Halt.exit 1, by simp [run, hc, hr]⟩
    · simp [run, hc, hr, cmdEvSt]
  | timedOut =>
    constructor
    · exact ⟨Halt.exit 1, by simp [run, hc]⟩
    · simp [run, hc, cmdEvSt]
  | spawnFailed =>
    constructor
    · exact ⟨Halt.crashed, by simp [run, hc]⟩
    · simp [run, hc, cmdEvSt]

lemma preservesFlag_create_systemd_service : PreservesFlag create_systemd_service := by
  unfold create_systemd_service
  apply preservesFlag_bind preservesFlag_get_script_path; intro _
  apply preservesFlag_bind preservesFlag_get_username; intro _
  apply preservesFlag_bind (preservesFlag_run _); intro _
  apply preservesFlag_bind (preservesFlag_run _); intro _
  apply preservesFlag_bind (preservesFlag_run _); intro _
  apply preservesFlag_bind (preservesFlag_run _); intro _
  apply preservesFlag_bind (preservesFlag_run_safe _); intro _
  apply preservesFlag_bind (preservesFlag_run_safe _); intro _
  apply preservesFlag_bind (preservesFlag_write_file _ _); intro _
  apply preservesFlag_bind (preservesFlag_run _); intro _
  exact preservesFlag_bind (preservesFlag_run _) (fun _ => preservesFlag_pure ())

lemma preservesFlag_show_management : PreservesFlag show_management_commands := by
  unfold show_management_commands
  exact preservesFlag_bind preservesFlag_get_server_ip (fun _ => preservesFlag_pure ())

lemma preservesFlag_main_post : PreservesFlag main_post := by
  unfold main_post
  apply preservesFlag_bind preservesFlag_read_step; intro step1
  apply preservesFlag_ite ?_ (preservesFlag_pure ())
  apply preservesFlag_bind preservesFlag_create_systemd_service; intro _
  apply preservesFlag_bind preservesFlag_show_management; intro _
  exact preservesFlag_bind (preservesFlag_run _) (fun _ => preservesFlag_pure ())

lemma main_entry_rootfail (env : Env) (s : St) (hu : env.euid ≠ 0) :
    main_entry env s = (Except.error (Halt.exit 1), s) := by
  have h1 : check_root env s = (Except.error (Halt.exit 1), s) := by
    unfold check_root; rw [if_pos hu]
  unfold main_entry
  rw [bind_def]
  unfold mBind
  rw [h1]

/-- With the root check passed and the checkpoint not at 1, the main entry
reduces to the stage dispatch followed by the completion tail. -/
lemma main_entry_eq1 (env : Env) (s : St) (hu : env.euid = 0)
    (hn1 : get_step s.flagFile ≠ 1) :
    main_entry env s = mBind setup (fun _ => main_post) env s := by
  have h1 : check_root env s = (Except.ok (), s) := by
    unfold check_root
    rw [if_neg (by simp [hu])]
  unfold main_entry
  rw [bind_def]
  unfold mBind
  rw [h1]
  show mBind
    (if get_step s.flagFile = 1 then liftE (validate_config RAID_LEVEL RAID_DEVICES.length)
     else pure ())
    (fun _ => mBind setup (fun _ => main_post)) env s =
    mBind setup (fun _ => main_post) env s
  rw [if_neg hn1]
  rfl

/-- Once the checkpoint ordinal has reached 8, no part of the main entry
path ever writes the checkpoint file. -/
lemma main_entry_ge8_flag (env : Env) (s : St) (r : Except Halt Unit) (s2 : St)
    (h : 8 ≤ get_step s.flagFile) (heq : main_entry env s = (r, s2)) :
    s2.flagFile = s.flagFile := by
  by_cases hu : env.euid = 0
  · rw [main_entry_eq1 env s hu (by omega)] at heq
    unfold mBind at heq
    rw [setup_ge8 env s h] at heq
    have heq2 : main_post env (netSt s) = (r, s2) := heq
    have := preservesFlag_main_post env (netSt s)
    rw [heq2] at this
    exact this
  · rw [main_entry_rootfail env s hu] at heq
    cases heq
    rfl

/-- An early termination of the first computation short-circuits the whole
sequence: the caller never regains control. -/
lemma mBind_error {α β : Type} (x : M α) (f : α → M β) (env : Env) (s : St)
    (e : Halt) (s2 : St) (h : x env s = (Except.error e, s2)) :
    (x >>= f) env s = (Except.error e, s2) := by
  rw [bind_def]
  unfold mBind
  rw [h]

/-- Behaviour of a confirmation followed by a stage body: the prompt is
recorded first, and the body runs only on an affirmative answer. -/
lemma confirm_then (p : String) (body : M Unit) (env : Env) (s1 : St) :
    (confirm_action p >>= fun _ => body) env s1 =
      if pyLower env.confirmInput = "yes" then
        body env { s1 with trace := s1.trace ++ [Event.confirm] }
      else (Except.error (Halt.exit 0), { s1 with trace := s1.trace ++ [Event.confirm] }) := by
  rw [bind_def]
  unfold mBind
  by_cases hy : pyLower env.confirmInput = "yes"
  · rw [if_pos hy]
    have hc : confirm_action p env s1 =
        (Except.ok (), { s1 with trace := s1.trace ++ [Event.confirm] }) := by
      simp [confirm_action, hy]
    rw [hc]
  · rw [if_neg hy]
    have hc : confirm_action p env s1 =
        (Except.error (Halt.exit 0), { s1 with trace := s1.trace ++ [Event.confirm] }) := by
      simp [confirm_action, hy]
    rw [hc]

/-- On an invocation dispatched to stage 3 or stage 4 the trace gains the
network query, then the confirmation prompt, and further events only on an
affirmative answer; a declined confirmation exits 0. -/
lemma setup_confirm_gate (env : Env) (s : St)
    (h34 : get_step s.flagFile = 3 ∨ get_step s.flagFile = 4) :
    ∃ bt, ((setup env s).2).trace =
        s.trace ++ [Event.cmd ["hostname", "-I"], Event.confirm] ++
          (if pyLower env.confirmInput = "yes" then bt else []) ∧
      (pyLower env.confirmInput ≠ "yes" → (setup env s).1 = Except.error (Halt.exit 0)) := by
  obtain ⟨net, hs⟩ := setup_apply env s
  rcases h34 with h3 | h4
  · rw [hs, if_neg (by omega : ¬ get_step s.flagFile = 1),
      if_neg (by omega : ¬ get_step s.flagFile = 2), if_pos h3]
    unfold stage3
    rw [confirm_then]
    by_cases hy : pyLower env.confirmInput = "yes"
    · rw [if_pos hy]
      obtain ⟨bt, hbt⟩ :=
        traceMono_bind (traceMono_wipe_devices RAID_DEVICES)
          (fun _ => traceMono_set_step 4) env
          { netSt s with trace := (netSt s).trace ++ [Event.confirm] }
      refine ⟨bt, ?_, fun hne => absurd hy hne⟩
      rw [if_pos hy, hbt]
      simp [netSt]
    · rw [if_neg hy]
      refine ⟨[], ?_, fun _ => rfl⟩
      rw [if_neg hy]
      simp [netSt]
  · rw [hs, if_neg (by omega : ¬ get_step s.flagFile = 1),
      if_neg (by omega : ¬ get_step s.flagFile = 2),
      if_neg (by omega : ¬ get_step s.flagFile = 3), if_pos h4]
    unfold stage4
    rw [confirm_then]
    by_cases hy : pyLower env.confirmInput = "yes"
    · rw [if_pos hy]
      obtain ⟨bt, hbt⟩ :=
        traceMono_bind (traceMono_run _) (fun _ => traceMono_set_step 5) env
          { netSt s with trace := (netSt s).trace ++ [Event.confirm] }
      refine ⟨bt, ?_, fun hne => absurd hy hne⟩
      rw [if_pos hy, hbt]
      simp [netSt]
    · rw [if_neg hy]
      refine ⟨[], ?_, fun _ => rfl⟩
      rw [if_neg hy]
      simp [netSt]

/-- The validator accepts exactly when no check of the elif chain flags the
configuration, provided the level is allowed. -/
lemma validate_config_cases (level : Int) (c : Nat)
    (hmem : level ∈ ALLOWED_RAID_LEVELS) :
    validate_config level c = Except.ok () ↔
      ¬((level = 1 ∧ c ≠ 2) ∨ (level = 5 ∧ c < 3) ∨
        (level = 10 ∧ (c < 4 ∨ c % 2 ≠ 0)) ∨ (level = 0 ∧ c < 2)) := by
  simp only [validate_config]
  rw [if_neg (not_not_intro hmem)]
  by_cases h1 : level = 1 ∧ c ≠ 2
  · rw [if_pos h1]
    exact iff_of_false (by simp) (fun hnd => hnd (Or.inl h1))
  rw [if_neg h1]
  by_cases h2 : level = 5 ∧ c < 3
  · rw [if_pos h2]
    exact iff_of_false (by simp) (fun hnd => hnd (Or.inr (Or.inl h2)))
  rw [if_neg h2]
  by_cases h3 : level = 10 ∧ (c < 4 ∨ c % 2 ≠ 0)
  · rw [if_pos h3]
    exact iff_of_false (by simp) (fun hnd => hnd (Or.inr (Or.inr (Or.inl h3))))
  rw [if_neg h3]
  by_cases h4 : level = 0 ∧ c < 2
  · rw [if_pos h4]
    exact iff_of_false (by simp) (fun hnd => hnd (Or.inr (Or.inr (Or.inr h4))))
  rw [if_neg h4]
  exact iff_of_true (by simp) (by tauto)

/-- The validator has only two results: acceptance, or exit 1. -/
lemma validate_config_total (level : Int) (c : Nat) :
    validate_config level c = Except.ok () ∨
    validate_config level c = Except.error (Halt.exit 1) := by
  simp only [validate_config]
  split_ifs <;> simp

/-- C1 (amended): for every stage other than stage 1, a failed required
command (non-zero exit, timeout, or spawn failure) halts the invocation with
the persisted checkpoint ordinal unchanged.  Stage 1, however, persists the
checkpoint before its final reboot command; only a failure of one of its
package commands, which precede the checkpoint write, leaves the checkpoint
unchanged. -/
theorem c1_checkpoint_on_failure :
    (∀ (env : Env) (s : St) (e : Halt) (s2 : St),
        2 ≤ get_step s.flagFile → get_step s.flagFile ≤ 7 →
        setup env s = (Except.error e, s2) →
        get_step s2.flagFile = get_step s.flagFile) ∧
    (∀ (env : Env) (s : St), (env.cmdOutcome s.nCmds).isFatal = true →
        (∃ e, (stage1 env s).1 = Except.error e) ∧
        ((stage1 env s).2).flagFile = s.flagFile) := by
  constructor
  · intro env s e s2 hlo hhi heq
    rw [setup_err_flag env s e s2 hlo hhi heq]
  · exact stage1_first_cmd_fatal

/-- C1 counterexample: in stage 1 the checkpoint is written before the
reboot command, so when the reboot command fails the invocation halts with
exit 1 and the persisted ordinal has nevertheless advanced from 1 to 2. -/
theorem c1_counterexample :
    (setup envRebootFail (st0 FileState.absent)).1 = Except.error (Halt.exit 1) ∧
    get_step ((st0 FileState.absent).flagFile) = 1 ∧
    get_step (((setup envRebootFail (st0 FileState.absent)).2).flagFile) = 2 :=
  ⟨rfl, rfl, rfl⟩

theorem c1_witness :
    get_step (((setup envStage2Fail (st0 (FileState.readable "2"))).2).flagFile) =
      get_step ((st0 (FileState.readable "2")).flagFile) ∧
    ((stage1 envNonZero (st0 FileState.absent)).2).flagFile = FileState.absent :=
  ⟨c1_checkpoint_on_failure.1 envStage2Fail (st0 (FileState.readable "2"))
      (Halt.exit 1) ((setup envStage2Fail (st0 (FileState.readable "2"))).2)
      (by decide) (by decide) rfl,
   (c1_checkpoint_on_failure.2 envNonZero (st0 FileState.absent) (by decide)).2⟩

/-- C2 (amended): when a stage completes successfully and the checkpoint
write itself succeeds, the persisted ordinal afterwards is exactly the prior
ordinal plus 1; whatever happens, the ordinal never decreases and never
advances by more than 1 in one invocation.  When the checkpoint write fails
(reported but non-fatal in `set_step`), a successful stage leaves the
ordinal unchanged. -/
theorem c2_checkpoint_advance :
    (∀ (env : Env) (s : St) (a : Unit) (s2 : St),
        env.stepWriteOk = true →
        1 ≤ get_step s.flagFile → get_step s.flagFile ≤ 7 →
        setup env s = (Except.ok a, s2) →
        get_step s2.flagFile = get_step s.flagFile + 1) ∧
    (∀ (env : Env) (s : St) (r : Except Halt Unit) (s2 : St),
        setup env s = (r, s2) →
        get_step s2.flagFile = get_step s.flagFile ∨
        get_step s2.flagFile = get_step s.flagFile + 1) :=
  ⟨setup_ok_step, setup_flag_options⟩

/-- C2 counterexample: stage 6 completes successfully, but because the
checkpoint write fails (swallowed by `set_step`), the persisted ordinal
afterwards is still 6, not 7. -/
theorem c2_counterexample :
    (setup envNoWrite (st0 (FileState.readable "6"))).1 = Except.ok () ∧
    get_step (((setup envNoWrite (st0 (FileState.readable "6"))).2).flagFile) = 6 :=
  ⟨rfl, rfl⟩

theorem c2_witness :
    get_step (((setup envAll (st0 (FileState.readable "2"))).2).flagFile) =
      get_step ((st0 (FileState.readable "2")).flagFile) + 1 ∧
    (get_step (((setup envAll (st0 (FileState.readable "4"))).2).flagFile) =
      get_step ((st0 (FileState.readable "4")).flagFile) ∨
     get_step (((setup envAll (st0 (FileState.readable "4"))).2).flagFile) =
      get_step ((st0 (FileState.readable "4")).flagFile) + 1) :=
  ⟨c2_checkpoint_advance.1 envAll (st0 (FileState.readable "2")) ()
      ((setup envAll (st0 (FileState.readable "2"))).2) rfl (by decide) (by decide) rfl,
   c2_checkpoint_advance.2 envAll (st0 (FileState.readable "4"))
      ((setup envAll (st0 (FileState.readable "4"))).1)
      ((setup envAll (st0 (FileState.readable "4"))).2) rfl⟩

/-- C3: for every redundancy level in the allowed set, `validate_config`
accepts exactly the device counts satisfying the cardinality rule as the
specification words it (RAID 1 iff exactly 2, RAID 5 iff at least 3,
RAID 10 iff even and at least 4, RAID 0 iff at least 2); a level outside
the allowed set, and any rejection, terminates with exit code 1. -/
theorem c3_validate_config_iff :
    ∀ (level : Int) (c : Nat),
      (level ∈ ALLOWED_RAID_LEVELS →
        (validate_config level c = Except.ok () ↔ spec_cardinality_rule level c)) ∧
      (level ∉ ALLOWED_RAID_LEVELS →
        validate_config level c = Except.error (Halt.exit 1)) ∧
      (validate_config level c ≠ Except.ok () →
        validate_config level c = Except.error (Halt.exit 1)) := by
  intro level c
  refine ⟨?_, ?_, ?_⟩
  · intro hmem
    rw [validate_config_cases level c hmem]
    have hmem4 : level = 0 ∨ level = 1 ∨ level = 5 ∨ level = 10 := by
      simpa [ALLOWED_RAID_LEVELS] using hmem
    rcases hmem4 with h | h | h | h <;> subst h <;>
      simp only [spec_cardinality_rule] <;> norm_num
  · intro hnot
    unfold validate_config
    rw [if_pos hnot]
  · intro hne
    rcases validate_config_total level c with h | h
    · exact absurd h hne
    · exact h

theorem c3_witness :
    validate_config 10 4 = Except.ok () ∧
    validate_config 5 2 = Except.error (Halt.exit 1) ∧
    validate_config 7 2 = Except.error (Halt.exit 1) :=
  ⟨((c3_validate_config_iff 10 4).1 (by decide)).mpr
      (by unfold spec_cardinality_rule; norm_num),
   (c3_validate_config_iff 5 2).2.2 (fun h => Except.noConfusion h),
   (c3_validate_config_iff 7 2).2.1 (by decide)⟩

/-- C4 (amended): at a checkpoint ordinal of 8 or more, the stage dispatch
in `setup` performs no stage action at all: it returns normally, leaves the
checkpoint file untouched, and the only recorded event is the unconditional
network-address query that every invocation makes.  The checkpoint is a
fixed point of the whole entry path: no invocation at ordinal 8 or more
ever writes it.  However, the entry path is not free of mutating actions:
it re-creates and restarts the dashboard service on every such invocation
(see the counterexample). -/
theorem c4_terminal_amended :
    (∀ (env : Env) (s : St), 8 ≤ get_step s.flagFile →
        setup env s = (Except.ok (), netSt s)) ∧
    (∀ (env : Env) (s : St) (r : Except Halt Unit) (s2 : St),
        8 ≤ get_step s.flagFile → main_entry env s = (r, s2) →
        s2.flagFile = s.flagFile) :=
  ⟨setup_ge8, main_entry_ge8_flag⟩

/-- C4 counterexample: an invocation at ordinal 8 executes commands and
writes the systemd unit file (via `create_systemd_service`), so the
terminal state is not free of mutating actions. -/
theorem c4_counterexample :
    Event.cmd ["mkdir", "-p", "/opt/nas-dashboard"] ∈
        ((main_entry envAll (st0 (FileState.readable "8"))).2).trace ∧
    Event.fileWrite "/etc/systemd/system/nas-dashboard.service" ∈
        ((main_entry envAll (st0 (FileState.readable "8"))).2).trace := by
  decide

theorem c4_witness :
    setup envAll (st0 (FileState.readable "8")) =
        (Except.ok (), netSt (st0 (FileState.readable "8"))) ∧
    ((main_entry envAll (st0 (FileState.readable "8"))).2).flagFile =
        (st0 (FileState.readable "8")).flagFile :=
  ⟨c4_terminal_amended.1 envAll (st0 (FileState.readable "8")) (by decide),
   c4_terminal_amended.2 envAll (st0 (FileState.readable "8"))
      ((main_entry envAll (st0 (FileState.readable "8"))).1)
      ((main_entry envAll (st0 (FileState.readable "8"))).2) (by decide) rfl⟩

/-- C5 (amended): `confirm_action` lowercases the operator input first: any
input whose lowercase form differs from the token yes terminates with exit
code 0, leaving the checkpoint and the command count untouched and
recording only the prompt; any input whose lowercase form is yes (so also
capitalised variants, not only the exact token) returns, letting execution
proceed into the stage commands. -/
theorem c5_confirm_amended :
    ∀ (p : String) (env : Env) (s : St),
      (pyLower env.confirmInput ≠ "yes" →
        confirm_action p env s =
          (Except.error (Halt.exit 0), { s with trace := s.trace ++ [Event.confirm] })) ∧
      (pyLower env.confirmInput = "yes" →
        confirm_action p env s =
          (Except.ok (), { s with trace := s.trace ++ [Event.confirm] })) := by
  intro p env s
  constructor
  · intro h
    simp [confirm_action, h]
  · intro h
    simp [confirm_action, h]

/-- C5 counterexample: the input YES differs from the exact affirmative
token, yet `confirm_action` accepts it and returns. -/
theorem c5_counterexample :
    ("YES" : String) ≠ "yes" ∧
    (confirm_action "p" envCaps (st0 FileState.absent)).1 = Except.ok () :=
  ⟨by decide, rfl⟩

theorem c5_witness :
    confirm_action "p" envDecline (st0 FileState.absent) =
      (Except.error (Halt.exit 0),
        { st0 FileState.absent with
          trace := (st0 FileState.absent).trace ++ [Event.confirm] }) :=
  (c5_confirm_amended "p" envDecline (st0 FileState.absent)).1 (by decide)

/-- C6: on an invocation dispatched to one of the destructive stages (3 or
4), the recorded trace starts with the network query followed immediately
by the confirmation prompt — neither of which is a destructive command —
and all further events, in particular every `wipefs` and `mdadm` command,
occur only when the confirmation was answered affirmatively; a declined
confirmation terminates with exit code 0. -/
theorem c6_confirmation_gate :
    ∀ (env : Env) (s : St),
      get_step s.flagFile = 3 ∨ get_step s.flagFile = 4 →
      ∃ bt, (((setup env s).2).trace =
          s.trace ++ [Event.cmd ["hostname", "-I"], Event.confirm] ++
            (if pyLower env.confirmInput = "yes" then bt else [])) ∧
        (pyLower env.confirmInput ≠ "yes" →
          (setup env s).1 = Except.error (Halt.exit 0)) ∧
        destructive_cmd (Event.cmd ["hostname", "-I"]) = false ∧
        destructive_cmd Event.confirm = false := by
  intro env s h34
  obtain ⟨bt, ht, he⟩ := setup_confirm_gate env s h34
  exact ⟨bt, ht, he, rfl, rfl⟩

theorem c6_witness :
    (setup envDecline (st0 (FileState.readable "3"))).1 = Except.error (Halt.exit 0) := by
  obtain ⟨bt, ht, he, h1, h2⟩ :=
    c6_confirmation_gate envDecline (st0 (FileState.readable "3")) (Or.inl (by decide))
  exact he (by decide)

/-- C7 (amended): `run_safe` never halts the invocation and never
propagates a failure: it always returns normally, yielding the captured
result of a completed command whatever its exit status (callers must
inspect `returncode`), and an absent result (`None`) on a timeout or a
spawn failure. -/
theorem c7_run_safe_amended :
    ∀ (argv : List String) (env : Env) (s : St),
      run_safe argv env s =
        (Except.ok (match env.cmdOutcome s.nCmds with
          | CmdOutcome.completed r => some r
          | _ => none), cmdEvSt argv s) := by
  intro argv env s
  unfold run_safe
  cases env.cmdOutcome s.nCmds <;> rfl

/-- C7 counterexample: on a command that fails with exit status 1,
`run_safe` returns the captured result, not an empty or absent one. -/
theorem c7_counterexample :
    (run_safe ["df", "-h"] envNonZero (st0 FileState.absent)).1 =
      Except.ok (some ⟨1, "out", "err"⟩) ∧
    some (⟨1, "out", "err"⟩ : CmdResult) ≠ none :=
  ⟨rfl, by decide⟩

/-- C8: `run` on a command that exits non-zero halts the invocation with
exit code 1 after recording the dump of the captured stdout and stderr; on
a timeout it halts with exit code 1; it returns a result only when the
command completed with exit status 0; and when it halts, the sequel bound
after it never runs, so control never returns to the caller. -/
theorem c8_run_fatal :
    ∀ (argv : List String) (env : Env) (s : St),
      (∀ r, env.cmdOutcome s.nCmds = CmdOutcome.completed r → r.returncode ≠ 0 →
        run argv env s = (Except.error (Halt.exit 1),
          { cmdEvSt argv s with trace := (cmdEvSt argv s).trace ++ dumpEvents r })) ∧
      (env.cmdOutcome s.nCmds = CmdOutcome.timedOut →
        run argv env s = (Except.error (Halt.exit 1), cmdEvSt argv s)) ∧
      (∀ r, (run argv env s).1 = Except.ok r →
        env.cmdOutcome s.nCmds = CmdOutcome.completed r ∧ r.returncode = 0) ∧
      (∀ (f : CmdResult → M Unit) (e : Halt) (s2 : St),
        run argv env s = (Except.error e, s2) →
        (run argv >>= f) env s = (Except.error e, s2)) := by
  intro argv env s
  refine ⟨?_, ?_, ?_, ?_⟩
  · intro r hr hne
    simp only [run, hr]
    rw [if_neg hne]
  · intro hr
    simp only [run, hr]
  · intro r hok
    cases hc : env.cmdOutcome s.nCmds with
    | completed r2 =>
      simp only [run, hc] at hok
      by_cases h0 : r2.returncode = 0
      · rw [if_pos h0] at hok
        have hrr : r2 = r := by simpa using hok
        subst hrr
        exact ⟨rfl, h0⟩
      · rw [if_neg h0] at hok
        simp at hok
    | timedOut =>
      simp [run, hc] at hok
    | spawnFailed =>
      simp [run, hc] at hok
  · intro f e s2 h
    exact mBind_error _ f env s e s2 h

theorem c8_witness :
    run ["mdadm", "--detail", "--scan"] envNonZero (st0 FileState.absent) =
      (Except.error (Halt.exit 1),
        { cmdEvSt ["mdadm", "--detail", "--scan"] (st0 FileState.absent) with
          trace := (cmdEvSt ["mdadm", "--detail", "--scan"] (st0 FileState.absent)).trace ++
            dumpEvents ⟨1, "out", "err"⟩ }) :=
  (c8_run_fatal ["mdadm", "--detail", "--scan"] envNonZero (st0 FileState.absent)).1
    ⟨1, "out", "err"⟩ rfl (by decide)

/-- C9: `get_step` is fail-open: an absent backing file, an unreadable
file, and a file whose content is not a valid integer all yield the initial
ordinal 1, and the function is total, so no exception can escape. -/
theorem c9_get_step_fail_open :
    get_step FileState.absent = 1 ∧ get_step FileState.unreadable = 1 ∧
      ∀ s : String, pyParseInt (pyStrip s) = none →
        get_step (FileState.readable s) = 1 := by
  refine ⟨rfl, rfl, ?_⟩
  intro s h
  simp only [get_step, h]

theorem c9_witness :
    pyParseInt (pyStrip "garbage") = none ∧
    get_step (FileState.readable "garbage") = 1 :=
  ⟨by decide, c9_get_step_fail_open.2.2 "garbage" (by decide)⟩

/-- C10: a checkpoint file holding a valid integer n with n at most 0 makes
`get_step` return n itself, not the initial ordinal 1, and `setup` then
matches no stage branch: it returns normally with the checkpoint unchanged
and no stage action performed (only the unconditional network query of
every invocation is recorded). -/
theorem c10_nonpositive_ordinal :
    ∀ (str : String) (n : Int), pyParseInt (pyStrip str) = some n → n ≤ 0 →
      get_step (FileState.readable str) = n ∧ n ≠ 1 ∧
      ∀ (env : Env) (st : St), st.flagFile = FileState.readable str →
        setup env st = (Except.ok (), netSt st) := by
  intro str n hp hn
  have hg : get_step (FileState.readable str) = n := by
    simp only [get_step, hp]
  refine ⟨hg, by omega, ?_⟩
  intro env st hf
  apply setup_le0
  rw [hf, hg]
  exact hn

theorem c10_witness :
    get_step (FileState.readable "-3") = -3 ∧
    setup envAll (st0 (FileState.readable "-3")) =
      (Except.ok (), netSt (st0 (FileState.readable "-3"))) := by
  have h := c10_nonpositive_ordinal "-3" (-3) (by decide) (by decide)
  exact ⟨h.1, h.2.2 envAll (st0 (FileState.readable "-3")) rfl⟩

end NasPy
